import Mathlib

/-!
Shallow embedding of the Hand-Written-number-recognition client application:
the service worker (src/service-worker.js), the bootstrap orchestrator
(src/js/ui.js, app module), the model manager and the statistics manager
(src/js/stats.js).  JavaScript numbers are modelled as rationals, network
responses as explicit records, and the asynchronous handlers as pure
state-passing functions; a network is a function from URL to an optional
response (none models a rejected fetch, some models a settled response of
any HTTP status).
-/

namespace DigitRec

/-- An HTTP response: status code and body.  Mirrors the observable parts of
the Response objects handled in src/service-worker.js. -/
structure Response where
  status : Nat
  body : String
deriving DecidableEq, Repr

/-- A response is successful in the sense of the Fetch standard
(Response.ok): status in the 200-299 range.  The fetch handlers in
service-worker.js store only status 200, which implies this. -/
def Response.isSuccess (r : Response) : Bool :=
  200 ≤ r.status && r.status < 300

/-- The Cache Store of one generation: an association list from request URL
to stored response.  A put prepends and a match takes the first hit, so a
later put overwrites an earlier one for lookups. -/
abbrev Cache := List (String × Response)

/-- The network: maps a URL to none (fetch rejects: network failure) or to
some response (fetch resolves, with any status). -/
abbrev Net := String → Option Response

/-- CACHE_NAME from service-worker.js line 6. -/
def CACHE_NAME : String := "digit-recognition-v1"

/-- STATIC_CACHE_FILES from service-worker.js lines 9-18: the Static
Resource Manifest cached on install. -/
def STATIC_CACHE_FILES : List String :=
  ["./index.html", "./manifest.json", "./css/styles.css", "./js/app.js",
   "./js/canvas.js", "./js/model.js", "./js/ui.js", "./js/stats.js"]

/-- CDN_CACHE_FILES from service-worker.js lines 21-24: the External
Resource Set cached best-effort on install. -/
def CDN_CACHE_FILES : List String :=
  ["https://cdn.jsdelivr.net/npm/fabric@5.3.0/dist/fabric.min.js",
   "https://cdn.jsdelivr.net/npm/@tensorflow/tfjs@4.11.0/dist/tf.min.js"]

/-- caches.match: first entry whose key equals the URL. -/
def cacheMatch : Cache → String → Option Response
  | [], _ => none
  | e :: rest, url => if e.1 = url then some e.2 else cacheMatch rest url

/-- cache.put: store a response under a URL (prepend; lookups see the
newest entry first, so this overwrites). -/
def cachePut (cache : Cache) (url : String) (r : Response) : Cache :=
  (url, r) :: cache

/-- A request as the fetch handler sees it: its origin and its path; the
request identity (URL) is origin ++ path. -/
structure Request where
  origin : String
  path : String
deriving DecidableEq, Repr

/-- The full URL of a request, used as the cache key. -/
def Request.url (r : Request) : String := r.origin ++ r.path

/-- Result of one run of the fetch handler: the response delivered to the
page (ok) or a propagated rejection (error, carrying the error message),
the cache afterwards, and the list of URLs for which a network request was
issued during the run. -/
structure FetchResult where
  response : Except String Response
  cache : Cache
  netRequests : List String
deriving Repr

/-- Cross-origin (cache-first) branch of the fetch handler,
service-worker.js lines 85-113: serve from cache when present; otherwise
fetch, cache a copy when the status is 200, and return the network
response; propagate a fetch rejection. -/
def handleCrossOrigin (net : Net) (cache : Cache) (url : String) : FetchResult :=
  match cacheMatch cache url with
  | some cached => ⟨.ok cached, cache, []⟩
  | none =>
    match net url with
    | some resp =>
      if resp.status = 200 then ⟨.ok resp, cachePut cache url resp, [url]⟩
      else ⟨.ok resp, cache, [url]⟩
    | none => ⟨.error "fetch failed", cache, [url]⟩

/-- Same-origin (network-first) branch of the fetch handler,
service-worker.js lines 116-140: fetch first; on a settled response cache
a copy when the status is 200 and return the live response; on rejection
fall back to the cache, and with no cached entry throw
"No cached version available". -/
def handleSameOrigin (net : Net) (cache : Cache) (url : String) : FetchResult :=
  match net url with
  | some resp =>
    if resp.status = 200 then ⟨.ok resp, cachePut cache url resp, [url]⟩
    else ⟨.ok resp, cache, [url]⟩
  | none =>
    match cacheMatch cache url with
    | some cached => ⟨.ok cached, cache, [url]⟩
    | none => ⟨.error "No cached version available", cache, [url]⟩

/-- The fetch event handler, service-worker.js lines 80-141: dispatch on
whether the request origin differs from the application origin. -/
def handleFetch (net : Net) (appOrigin : String) (cache : Cache) (req : Request) : FetchResult :=
  if req.origin ≠ appOrigin then handleCrossOrigin net cache req.url
  else handleSameOrigin net cache req.url

/-- cache.add(url) per the Fetch/Cache standard as used by the install
handler: fetch the URL; store the response only when it is successful
(Response.ok); report failure when the fetch rejects or the response is
not ok.  Returns the cache afterwards and a success flag. -/
def cacheAdd (net : Net) (cache : Cache) (url : String) : Cache × Bool :=
  match net url with
  | some r => if r.isSuccess then (cachePut cache url r, true) else (cache, false)
  | none => (cache, false)

/-- cache.addAll(urls) as used by the install handler: add every URL in
order; the whole operation fails as soon as one add fails. -/
def cacheAddAll (net : Net) (cache : Cache) : List String → Cache × Bool
  | [] => (cache, true)
  | u :: us =>
    let step := cacheAdd net cache u
    if step.2 then cacheAddAll net step.1 us else (step.1, false)

/-- The install event handler, service-worker.js lines 29-53: addAll the
Static Resource Manifest (a failure there fails installation), then add
each External Resource Set URL with the error caught and swallowed, so CDN
failures never affect the outcome.  Returns the cache afterwards and
whether installation succeeded. -/
def install (net : Net) (cache : Cache) : Cache × Bool :=
  let staticStep := cacheAddAll net cache STATIC_CACHE_FILES
  if staticStep.2 then
    (CDN_CACHE_FILES.foldl (fun c url => (cacheAdd net c url).1) staticStep.1, true)
  else (staticStep.1, false)

/-- Whether cache.add would succeed for a URL: the network settles with a
successful response.  Depends only on the network, not on the cache. -/
def addOkB (net : Net) (url : String) : Bool :=
  match net url with
  | some r => r.isSuccess
  | none => false

/-- The activate event handler, service-worker.js lines 58-75: delete
every cache generation whose name differs from CACHE_NAME; the remaining
generations are those equal to CACHE_NAME. -/
def activate (cacheNames : List String) : List String :=
  cacheNames.filter (fun c => c = CACHE_NAME)

/-- Every stored response in the cache is successful. -/
def cacheOk (cache : Cache) : Prop :=
  ∀ e ∈ cache, e.2.isSuccess = true

/-! Bootstrap orchestrator, src/js/ui.js app module (lines 313-486). -/

/-- The bootstrap states of the spec's state machine. -/
inductive BootState
  | idle
  | loadingModel
  | retryPending
  | ready
  | failed
deriving DecidableEq, Repr

/-- MAX_ATTEMPTS from the app module (line 319). -/
def MAX_ATTEMPTS : Nat := 3

/-- Observable outcome of one bootstrap run: the number of the last load
attempt performed, the list of backoff delays (milliseconds) slept between
attempts, and the final state. -/
structure BootResult where
  attempts : Nat
  delays : List Nat
  final : BootState
deriving DecidableEq, Repr

/-- loadModel from the app module (lines 353-384), with initializeApp
(lines 389-409) inlined as the initOk flag: on a successful
ModelManager.init, run secondary initialization, whose own failure is
caught inside initializeApp and leads to showError directly; on a failed
init, if currentAttempt < MAX_ATTEMPTS increment the counter, sleep
2^(currentAttempt-2)*1000 ms and recurse, otherwise showError.  loadOk k
tells whether ModelManager.init succeeds on attempt k.  The fuel argument
bounds the recursion; runBootstrap supplies enough that it never runs out. -/
def loadModelGo (loadOk : Nat → Bool) (initOk : Bool) : Nat → Nat → BootResult
  | _, 0 => ⟨0, [], .failed⟩
  | attempt, fuel + 1 =>
    if loadOk attempt then
      ⟨attempt, [], if initOk then .ready else .failed⟩
    else if attempt < MAX_ATTEMPTS then
      let next := attempt + 1
      let delay := 2 ^ (next - 2) * 1000
      let rest := loadModelGo loadOk initOk next fuel
      ⟨rest.attempts, delay :: rest.delays, rest.final⟩
    else
      ⟨attempt, [], .failed⟩

/-- One full bootstrap run: currentAttempt starts at 1 (line 318). -/
def runBootstrap (loadOk : Nat → Bool) (initOk : Bool) : BootResult :=
  loadModelGo loadOk initOk 1 MAX_ATTEMPTS

/-! ModelManager, src/js/stats.js lines 109-278.  The TensorFlow model
object is abstracted to Unit (its numeric behaviour is out of scope); the
probabilities the model emits are passed to predict as a list of
rationals, standing for the data of the prediction tensor. -/

/-- The module-level state of ModelManager: the model variable (null
modelled as none) and the isLoaded flag. -/
structure ModelState where
  model : Option Unit
  isLoaded : Bool
deriving DecidableEq, Repr

/-- The state before ModelManager.init has run: model = null,
isLoaded = false (stats.js lines 113-114). -/
def ModelState.initial : ModelState := ⟨none, false⟩

/-- Math.round, on rationals: round half towards positive infinity. -/
def jsRound (x : ℚ) : ℤ := Int.floor (x + 1 / 2)

/-- Math.round(x * 10) / 10: round to one decimal place. -/
def round1 (x : ℚ) : ℚ := (jsRound (x * 10) : ℚ) / 10

/-- One entry of the prediction list: a digit and its probability (as a
percentage). -/
structure Prediction where
  digit : Nat
  probability : ℚ
deriving DecidableEq, Repr

/-- The map in predict (stats.js lines 229-232): index each probability
and convert to a percentage. -/
def toPredictionList (probs : List ℚ) : List Prediction :=
  probs.enum.map (fun ip => ⟨ip.1, ip.2 * 100⟩)

/-- Insert into a list sorted by descending probability. -/
def insertDesc (p : Prediction) : List Prediction → List Prediction
  | [] => [p]
  | q :: rest =>
    if q.probability ≤ p.probability then p :: q :: rest
    else q :: insertDesc p rest

/-- The sort in predict (stats.js line 235): descending by probability. -/
def sortDesc : List Prediction → List Prediction
  | [] => []
  | p :: rest => insertDesc p (sortDesc rest)

/-- The value predict resolves with: the top prediction (confidence
rounded to one decimal) and the top three (probabilities rounded). -/
structure PredictResult where
  topPrediction : Prediction
  topThree : List Prediction
deriving DecidableEq, Repr

namespace ModelManager

/-- ModelManager.init (stats.js lines 120-176): build and compile the
model — buildOk says whether that throws (e.g. the runtime is missing);
the inner loadWeights failure is caught and swallowed; on success set the
model and isLoaded = true and resolve, otherwise reject.  The previous
state is overwritten wholesale. -/
def init (buildOk : Bool) (_s : ModelState) : Except String ModelState :=
  if buildOk then .ok ⟨some (), true⟩ else .error "Failed to load model"

/-- ModelManager.predict (stats.js lines 210-262): reject with
"Model not loaded" unless isLoaded and the model is set; otherwise index
the model's probabilities, sort descending, take the top three and round.
An empty probability list would make topThree[0] throw in JS; that is the
TypeError branch. -/
def predict (probs : List ℚ) (s : ModelState) : Except String PredictResult :=
  if s.isLoaded = false ∨ s.model = none then .error "Model not loaded"
  else
    match sortDesc (toPredictionList probs) with
    | [] => .error "TypeError: no predictions"
    | top :: rest =>
      let topThree := (top :: rest).take 3
      .ok ⟨⟨top.digit, round1 top.probability⟩,
           topThree.map (fun p => ⟨p.digit, round1 p.probability⟩)⟩

end ModelManager

/-! StatsManager, src/js/stats.js lines 6-103. -/

/-- The module-level state of StatsManager: totalPredictions,
totalConfidence and averageConfidence (stats.js lines 10-12).  The
localStorage side effects of save() carry no information beyond this
state and are dropped. -/
structure StatsState where
  totalPredictions : Nat
  totalConfidence : ℚ
  averageConfidence : ℚ
deriving DecidableEq, Repr

namespace StatsManager

/-- StatsManager.getStats (stats.js lines 46-51): total and the average
rounded to one decimal. -/
def getStats (s : StatsState) : Nat × ℚ :=
  (s.totalPredictions, round1 s.averageConfidence)

/-- StatsManager.addPrediction (stats.js lines 34-40): increment the
count, accumulate the confidence, recompute the average. -/
def addPrediction (c : ℚ) (s : StatsState) : StatsState :=
  ⟨s.totalPredictions + 1, s.totalConfidence + c,
   (s.totalConfidence + c) / ((s.totalPredictions : ℚ) + 1)⟩

/-- StatsManager.reset (stats.js lines 56-62): zero all three fields. -/
def reset : StatsState := ⟨0, 0, 0⟩

end StatsManager

/-! Theorems -/

/-- Unfolding of loadModelGo at positive fuel. -/
theorem loadModelGo_succ (loadOk : Nat → Bool) (initOk : Bool) (attempt fuel : Nat) :
    loadModelGo loadOk initOk attempt (fuel + 1) =
      if loadOk attempt then
        ⟨attempt, [], if initOk then .ready else .failed⟩
      else if attempt < MAX_ATTEMPTS then
        let rest := loadModelGo loadOk initOk (attempt + 1) fuel
        ⟨rest.attempts, 2 ^ (attempt + 1 - 2) * 1000 :: rest.delays, rest.final⟩
      else
        ⟨attempt, [], .failed⟩ := by
  simp [loadModelGo]

/-- C1: when the model load fails on every attempt, the bootstrap performs
exactly 3 load attempts, sleeps exactly 1000 ms before the 2nd attempt and
2000 ms before the 3rd (2^(k-2) seconds before attempt k), and ends in the
Failed state with no further attempts and no further delay. -/
theorem bootstrap_three_failures (loadOk : Nat → Bool) (initOk : Bool)
    (h : ∀ k, loadOk k = false) :
    runBootstrap loadOk initOk = ⟨3, [1000, 2000], .failed⟩ := by
  have h3 : loadModelGo loadOk initOk 3 1 = ⟨3, [], BootState.failed⟩ := by
    rw [show (1 : Nat) = 0 + 1 from rfl, loadModelGo_succ]
    have hL : loadOk 3 = false := h 3
    simp [hL, MAX_ATTEMPTS]
  have h2 : loadModelGo loadOk initOk 2 2 = ⟨3, [2000], BootState.failed⟩ := by
    rw [show (2 : Nat) = 1 + 1 from rfl, loadModelGo_succ]
    have hL : loadOk (1 + 1) = false := h 2
    simp [hL, MAX_ATTEMPTS, h3]
  show loadModelGo loadOk initOk 1 3 = ⟨3, [1000, 2000], .failed⟩
  rw [show (3 : Nat) = 2 + 1 from rfl, loadModelGo_succ]
  have hL : loadOk 1 = false := h 1
  simp [hL, MAX_ATTEMPTS, h2]

/-- Witness for C1: a run in which every load attempt fails. -/
theorem bootstrap_three_failures_witness :
    runBootstrap (fun _ => false) true = ⟨3, [1000, 2000], .failed⟩ :=
  bootstrap_three_failures (fun _ => false) true (fun _ => rfl)

/-- Secondary initialization failure changes only the final state of a run
that would otherwise end Ready: the attempt count and the backoff delays
are those of the successful run, and the final state is Failed. -/
theorem loadModelGo_initFail (loadOk : Nat → Bool) :
    ∀ fuel attempt, (loadModelGo loadOk true attempt fuel).final = .ready →
      loadModelGo loadOk false attempt fuel =
        ⟨(loadModelGo loadOk true attempt fuel).attempts,
         (loadModelGo loadOk true attempt fuel).delays, .failed⟩ := by
  intro fuel
  induction fuel with
  | zero => intro attempt h; simp [loadModelGo] at h
  | succ n ih =>
    intro attempt h
    by_cases hl : loadOk attempt
    · simp [loadModelGo, hl]
    · by_cases ha : attempt < MAX_ATTEMPTS
      · have hready : (loadModelGo loadOk true (attempt + 1) n).final = .ready := by
          simpa [loadModelGo, hl, ha] using h
        have := ih (attempt + 1) hready
        simp [loadModelGo, hl, ha, this]
      · simp [loadModelGo, hl, ha] at h

/-- C8: if the model load succeeds on some attempt (the run with a
successful secondary initialization ends Ready) but the secondary
initialization of the canvas/UI/stats collaborators fails, the bootstrap
ends Failed with exactly the attempts and backoff delays of the successful
run: no retry attempt is consumed and no backoff delay is added. -/
theorem secondary_init_failure_fatal (loadOk : Nat → Bool)
    (h : (runBootstrap loadOk true).final = .ready) :
    runBootstrap loadOk false =
      ⟨(runBootstrap loadOk true).attempts,
       (runBootstrap loadOk true).delays, .failed⟩ :=
  loadModelGo_initFail loadOk MAX_ATTEMPTS 1 h

/-- Witness for C8: load succeeds on the first attempt, init fails; the
run ends Failed after 1 attempt with no delays. -/
theorem secondary_init_failure_fatal_witness :
    runBootstrap (fun _ => true) false =
      ⟨(runBootstrap (fun _ => true) true).attempts,
       (runBootstrap (fun _ => true) true).delays, .failed⟩ :=
  secondary_init_failure_fatal (fun _ => true) (by decide)

/-- C2: a cross-origin request with a cache hit is answered from the
cache, and no network request is issued for it. -/
theorem crossOrigin_cache_hit (net : Net) (appOrigin : String) (cache : Cache)
    (req : Request) (e : Response)
    (hor : req.origin ≠ appOrigin)
    (hc : cacheMatch cache req.url = some e) :
    (handleFetch net appOrigin cache req).response = .ok e ∧
    (handleFetch net appOrigin cache req).netRequests = [] := by
  simp [handleFetch, hor, handleCrossOrigin, hc]

/-- Witness for C2: a CDN request present in the cache is served from it
with no network traffic, over a network that would reject. -/
theorem crossOrigin_cache_hit_witness :
    (handleFetch (fun _ => none) "app" [("cdn/tf.js", ⟨200, "lib"⟩)]
        ⟨"cdn", "/tf.js"⟩).response = .ok ⟨200, "lib"⟩ ∧
    (handleFetch (fun _ => none) "app" [("cdn/tf.js", ⟨200, "lib"⟩)]
        ⟨"cdn", "/tf.js"⟩).netRequests = [] :=
  crossOrigin_cache_hit (fun _ => none) "app" [("cdn/tf.js", ⟨200, "lib"⟩)]
    ⟨"cdn", "/tf.js"⟩ ⟨200, "lib"⟩ (by decide) rfl

/-- C3: a same-origin request whose network fetch settles is answered with
the live network response, even when a (different) cached entry exists. -/
theorem sameOrigin_network_first (net : Net) (appOrigin : String) (cache : Cache)
    (req : Request) (resp : Response)
    (hor : req.origin = appOrigin)
    (hn : net req.url = some resp) :
    (handleFetch net appOrigin cache req).response = .ok resp ∧
    (∀ e : Response, cacheMatch cache req.url = some e → e ≠ resp →
      (handleFetch net appOrigin cache req).response ≠ .ok e) := by
  have h1 : (handleFetch net appOrigin cache req).response = .ok resp := by
    by_cases hs : resp.status = 200 <;>
      simp [handleFetch, hor, handleSameOrigin, hn, hs]
  refine ⟨h1, ?_⟩
  intro e _ hne heq
  rw [h1] at heq
  injection heq with h2
  exact hne h2.symm

/-- Witness for C3: the network responds with fresh content while a stale
copy sits in the cache; the fresh content is returned, not the stale. -/
theorem sameOrigin_network_first_witness :
    (handleFetch (fun _ => some ⟨200, "new"⟩) "app" [("app/x", ⟨200, "old"⟩)]
        ⟨"app", "/x"⟩).response = .ok ⟨200, "new"⟩ ∧
    (handleFetch (fun _ => some ⟨200, "new"⟩) "app" [("app/x", ⟨200, "old"⟩)]
        ⟨"app", "/x"⟩).response ≠ .ok ⟨200, "old"⟩ :=
  ⟨(sameOrigin_network_first (fun _ => some ⟨200, "new"⟩) "app"
      [("app/x", ⟨200, "old"⟩)] ⟨"app", "/x"⟩ ⟨200, "new"⟩ rfl rfl).1,
   (sameOrigin_network_first (fun _ => some ⟨200, "new"⟩) "app"
      [("app/x", ⟨200, "old"⟩)] ⟨"app", "/x"⟩ ⟨200, "new"⟩ rfl rfl).2
     ⟨200, "old"⟩ rfl (by decide)⟩

/-- C4: a same-origin request whose network fetch rejects and which has no
cached entry is answered with the error "No cached version available", and
never with any fabricated successful response. -/
theorem sameOrigin_no_cache_error (net : Net) (appOrigin : String) (cache : Cache)
    (req : Request)
    (hor : req.origin = appOrigin)
    (hn : net req.url = none)
    (hc : cacheMatch cache req.url = none) :
    (handleFetch net appOrigin cache req).response = .error "No cached version available" ∧
    (∀ r : Response, (handleFetch net appOrigin cache req).response ≠ .ok r) := by
  have h1 : (handleFetch net appOrigin cache req).response
      = .error "No cached version available" := by
    simp [handleFetch, hor, handleSameOrigin, hn, hc]
  refine ⟨h1, ?_⟩
  intro r heq
  rw [h1] at heq
  exact Except.noConfusion heq

/-- Witness for C4: offline, empty cache, same-origin request. -/
theorem sameOrigin_no_cache_error_witness :
    (handleFetch (fun _ => none) "app" [] ⟨"app", "/x"⟩).response
        = .error "No cached version available" ∧
    (handleFetch (fun _ => none) "app" [] ⟨"app", "/x"⟩).response
        ≠ .ok ⟨200, "fake"⟩ :=
  ⟨(sameOrigin_no_cache_error (fun _ => none) "app" [] ⟨"app", "/x"⟩ rfl rfl rfl).1,
   (sameOrigin_no_cache_error (fun _ => none) "app" [] ⟨"app", "/x"⟩ rfl rfl rfl).2
     ⟨200, "fake"⟩⟩

/-- A put of a successful response preserves the cache invariant. -/
theorem cacheOk_cachePut {cache : Cache} {url : String} {r : Response}
    (h : cacheOk cache) (hr : r.isSuccess = true) :
    cacheOk (cachePut cache url r) := by
  intro e he
  rcases List.mem_cons.mp he with rfl | he
  · exact hr
  · exact h e he

/-- The cross-origin branch writes only successful responses. -/
theorem cacheOk_handleCrossOrigin (net : Net) (cache : Cache) (url : String)
    (h : cacheOk cache) : cacheOk (handleCrossOrigin net cache url).cache := by
  unfold handleCrossOrigin
  cases cacheMatch cache url with
  | some cached => exact h
  | none =>
    cases net url with
    | none => exact h
    | some resp =>
      by_cases hs : resp.status = 200
      · simpa [hs] using cacheOk_cachePut h (by simp [Response.isSuccess, hs])
      · simpa [hs] using h

/-- The same-origin branch writes only successful responses. -/
theorem cacheOk_handleSameOrigin (net : Net) (cache : Cache) (url : String)
    (h : cacheOk cache) : cacheOk (handleSameOrigin net cache url).cache := by
  unfold handleSameOrigin
  cases net url with
  | some resp =>
    by_cases hs : resp.status = 200
    · simpa [hs] using cacheOk_cachePut h (by simp [Response.isSuccess, hs])
    · simpa [hs] using h
  | none =>
    cases cacheMatch cache url with
    | some cached => exact h
    | none => exact h

/-- cache.add writes only successful responses. -/
theorem cacheOk_cacheAdd (net : Net) (cache : Cache) (url : String)
    (h : cacheOk cache) : cacheOk (cacheAdd net cache url).1 := by
  unfold cacheAdd
  cases net url with
  | none => exact h
  | some r =>
    by_cases hr : r.isSuccess = true
    · simpa [hr] using cacheOk_cachePut h hr
    · simpa [hr] using h

/-- cache.addAll writes only successful responses. -/
theorem cacheOk_cacheAddAll (net : Net) (urls : List String) :
    ∀ cache : Cache, cacheOk cache → cacheOk (cacheAddAll net cache urls).1 := by
  induction urls with
  | nil => intro cache h; exact h
  | cons u us ih =>
    intro cache h
    unfold cacheAddAll
    by_cases hstep : (cacheAdd net cache u).2 = true
    · simpa [hstep] using ih _ (cacheOk_cacheAdd net cache u h)
    · simpa [hstep] using cacheOk_cacheAdd net cache u h

/-- The best-effort CDN caching loop writes only successful responses. -/
theorem cacheOk_foldAdd (net : Net) (urls : List String) :
    ∀ cache : Cache, cacheOk cache →
      cacheOk (urls.foldl (fun c url => (cacheAdd net c url).1) cache) := by
  induction urls with
  | nil => intro cache h; exact h
  | cons u us ih =>
    intro cache h
    exact ih _ (cacheOk_cacheAdd net cache u h)

/-- The install handler writes only successful responses. -/
theorem cacheOk_install (net : Net) (cache : Cache) (h : cacheOk cache) :
    cacheOk (install net cache).1 := by
  unfold install
  by_cases hs : (cacheAddAll net cache STATIC_CACHE_FILES).2 = true
  · simpa [hs] using
      cacheOk_foldAdd net CDN_CACHE_FILES _
        (cacheOk_cacheAddAll net STATIC_CACHE_FILES cache h)
  · simpa [hs] using cacheOk_cacheAddAll net STATIC_CACHE_FILES cache h

/-- C5: starting from a cache in which every entry has a successful
status, both the fetch handler (either branch) and the install handler
leave every entry with a successful status: an unsuccessful response is
never stored. -/
theorem cache_stores_only_success (net : Net) (appOrigin : String) (cache : Cache)
    (req : Request) (h : cacheOk cache) :
    cacheOk (handleFetch net appOrigin cache req).cache ∧
    cacheOk (install net cache).1 := by
  refine ⟨?_, cacheOk_install net cache h⟩
  unfold handleFetch
  by_cases hor : req.origin ≠ appOrigin
  · simpa [hor] using cacheOk_handleCrossOrigin net cache req.url h
  · simpa [hor] using cacheOk_handleSameOrigin net cache req.url h

/-- Witness for C5: a network that always answers with a 500 error; no
entry is stored by either handler, so the empty-cache invariant holds. -/
theorem cache_stores_only_success_witness :
    cacheOk (handleFetch (fun _ => some ⟨500, "err"⟩) "app" [] ⟨"app", "/x"⟩).cache ∧
    cacheOk (install (fun _ => some ⟨500, "err"⟩) []).1 :=
  cache_stores_only_success (fun _ => some ⟨500, "err"⟩) "app" [] ⟨"app", "/x"⟩
    (by simp [cacheOk])

/-- C6: for any duplicate-free set of cache generations that contains the
current one, activation leaves exactly the current generation. -/
theorem activate_exactly_current (names : List String)
    (hnd : names.Nodup) (hmem : CACHE_NAME ∈ names) :
    activate names = [CACHE_NAME] := by
  induction names with
  | nil => cases hmem
  | cons a rest ih =>
    rw [List.nodup_cons] at hnd
    rcases List.mem_cons.mp hmem with rfl | hmem
    · have hnone : rest.filter (fun c => decide (c = CACHE_NAME)) = [] := by
        rw [List.filter_eq_nil_iff]
        intro b hb
        simp only [decide_eq_true_eq]
        intro hbe
        exact hnd.1 (hbe ▸ hb)
      simp [activate, List.filter_cons, hnone]
    · have ha : ¬(a = CACHE_NAME) := fun he => hnd.1 (he ▸ hmem)
      have := ih hnd.2 hmem
      simpa [activate, List.filter_cons, ha] using this

/-- Witness for C6: one stale generation plus the current one. -/
theorem activate_exactly_current_witness :
    activate ["digit-recognition-v0", CACHE_NAME] = [CACHE_NAME] :=
  activate_exactly_current ["digit-recognition-v0", CACHE_NAME]
    (by decide) (by decide)

/-- Whether cache.add succeeds depends only on the network response for
the URL, not on the cache contents. -/
theorem cacheAdd_flag (net : Net) (cache : Cache) (url : String) :
    (cacheAdd net cache url).2 = addOkB net url := by
  unfold cacheAdd addOkB
  cases net url with
  | none => rfl
  | some r => by_cases hr : r.isSuccess = true <;> simp [hr]

/-- cache.addAll succeeds exactly when every URL caches successfully. -/
theorem cacheAddAll_flag (net : Net) (urls : List String) :
    ∀ cache : Cache, (cacheAddAll net cache urls).2 = urls.all (addOkB net) := by
  induction urls with
  | nil => intro cache; rfl
  | cons u us ih =>
    intro cache
    have haf := cacheAdd_flag net cache u
    unfold cacheAddAll
    cases hok : addOkB net u with
    | true => simp [haf, hok, ih]
    | false => simp [haf, hok]

/-- C7: installation succeeds exactly when every entry of the Static
Resource Manifest fetches and stores successfully; the outcome is a
function of the static entries alone, so a failure on an External
Resource Set entry is swallowed and never fails installation, while a
failure on any single static entry fails it. -/
theorem install_fatal_iff_static (net : Net) (cache : Cache) :
    (install net cache).2 = STATIC_CACHE_FILES.all (addOkB net) := by
  rw [← cacheAddAll_flag net STATIC_CACHE_FILES cache]
  unfold install
  by_cases hs : (cacheAddAll net cache STATIC_CACHE_FILES).2 = true <;> simp [hs]

/-- C9: predict rejects with "Model not loaded" before init has completed
successfully, and never raises that error after a successful init. -/
theorem predict_requires_loaded (probs : List ℚ) :
    ModelManager.predict probs ModelState.initial = .error "Model not loaded" ∧
    ∀ (b : Bool) (s s2 : ModelState), ModelManager.init b s = .ok s2 →
      ModelManager.predict probs s2 ≠ .error "Model not loaded" := by
  constructor
  · rfl
  · intro b s s2 hinit
    cases b with
    | false => exact absurd hinit (by simp [ModelManager.init])
    | true =>
      have hs2 : s2 = ⟨some (), true⟩ := by
        simpa [ModelManager.init] using hinit.symm
      subst hs2
      have hcond : ¬((ModelState.mk (some ()) true).isLoaded = false ∨
          (ModelState.mk (some ()) true).model = none) := by simp
      rw [ModelManager.predict, if_neg hcond]
      cases sortDesc (toPredictionList probs) with
      | nil =>
        intro hcontra
        injection hcontra with hmsg
        exact absurd hmsg (by decide)
      | cons top rest =>
        intro hcontra
        exact Except.noConfusion hcontra

/-- Witness for C9: a concrete probability list, before and after a
successful init. -/
theorem predict_requires_loaded_witness :
    ModelManager.predict [1] ModelState.initial = .error "Model not loaded" ∧
    ModelManager.predict [1] ⟨some (), true⟩ ≠ .error "Model not loaded" :=
  ⟨(predict_requires_loaded [1]).1,
   (predict_requires_loaded [1]).2 true ModelState.initial ⟨some (), true⟩ rfl⟩

/-- C10: addPrediction takes a state with count n and confidence sum s to
stats with total n + 1 and average (s + c) / (n + 1) rounded to one
decimal place, and reset yields total 0 and average 0. -/
theorem stats_addPrediction_getStats (c : ℚ) (s : StatsState) :
    StatsManager.getStats (StatsManager.addPrediction c s) =
      (s.totalPredictions + 1,
       round1 ((s.totalConfidence + c) / ((s.totalPredictions : ℚ) + 1))) ∧
    StatsManager.getStats StatsManager.reset = (0, 0) := by
  refine ⟨rfl, ?_⟩
  show (0, round1 0) = (0, 0)
  norm_num [round1, jsRound]

end DigitRec
